import Mathlib

/-!
# Verification of the tb-edge database backup script

Shallow embedding of `src/main.py`: a linear backup pipeline
(config validation → stale-state cleanup → pg_dump via docker → tar →
rmtree of the work directory → S3 upload → finalization), together with
theorems checking the natural-language specification against it.

The external world (filesystem, S3, stdout) is modelled explicitly, and
the outcomes of the external commands (`docker exec … pg_dump`, `tar`,
the boto3 upload call) are supplied by an `Oracle`, so every theorem
quantifies over all possible behaviours of the environment.
-/

namespace TbEdgeBackup

/-- Python truthiness of an optional string: `None` and `""` are falsy
(`if not value`, `if S3_FOLDER`). -/
def truthy : Option String → Bool
  | none => false
  | some s => s ≠ ""

/-- `str(value)` as used when printing an optional configuration value. -/
def py_str : Option String → String
  | none => "None"
  | some s => s

/-- Module-level configuration of `main.py` (lines 16–25): values read
from the environment, with the source's defaults already applied for the
variables that have one. -/
structure Config where
  container_name : String
  db_name : String
  db_user : String
  aws_access_key_id : Option String
  aws_secret_access_key : Option String
  aws_region : String
  s3_bucket_name : Option String
  s3_folder : Option String
deriving Repr, DecidableEq

/-- `load_config env` embeds lines 16–25 of `main.py`: `os.getenv` with
defaults for `CONTAINER_NAME`, `DB_NAME`, `DB_USER`, `AWS_REGION`, plain
`os.getenv` (optional) for the rest. -/
def load_config (env : String → Option String) : Config where
  container_name := (env "CONTAINER_NAME").getD "tb-edge-db"
  db_name := (env "DB_NAME").getD "tb-edge"
  db_user := (env "DB_USER").getD "postgres"
  aws_access_key_id := env "AWS_ACCESS_KEY_ID"
  aws_secret_access_key := env "AWS_SECRET_ACCESS_KEY"
  aws_region := (env "AWS_REGION").getD "us-east-1"
  s3_bucket_name := env "S3_BUCKET_NAME"
  s3_folder := env "S3_FOLDER"

/-- `required_vars` (lines 28–32): the dictionary of required variables. -/
def required_vars (c : Config) : List (String × Option String) :=
  [("AWS_ACCESS_KEY_ID", c.aws_access_key_id),
   ("AWS_SECRET_ACCESS_KEY", c.aws_secret_access_key),
   ("S3_BUCKET_NAME", c.s3_bucket_name)]

/-- `missing_vars` (line 33): keys whose value is falsy (`if not value`). -/
def missing_vars (c : Config) : List String :=
  ((required_vars c).filter (fun kv => ! truthy kv.2)).map Prod.fst

/-- The error line printed at line 36 when required variables are missing. -/
def missing_vars_msg (c : Config) : String :=
  "ERROR: Missing required environment variables: " ++
    String.intercalate ", " (missing_vars c)

/-- `os.path.join dir name` for a directory path with no trailing slash
and a relative `name`, the only way the script calls it. -/
def os_path_join (dir name : String) : String :=
  dir ++ "/" ++ name

/-- `os.path.basename p`: the part of `p` after the last `/`. -/
def os_path_basename (p : String) : String :=
  String.mk ((p.data.reverse.takeWhile (fun c => c ≠ '/')).reverse)

/-- `backup_dir` (line 46): the temporary work directory, colocated with
the script. -/
def backup_dir (script_dir : String) : String :=
  os_path_join script_dir "tb_edge_backup_tmp"

/-- `archive_file` (line 47): the local archive path, colocated with the
script. -/
def archive_file (script_dir : String) : String :=
  os_path_join script_dir "tb_edge_backup.tar.gz"

/-- Abstract local filesystem state, restricted to the two artifacts the
script touches. `work_dir = some files` means the temporary backup
directory exists and holds the files named in `files` (bare names);
`archive = some entries` means the archive file exists and `entries` are
the paths stored inside the tar archive. -/
structure FS where
  work_dir : Option (List String)
  archive : Option (List String)
deriving Repr, DecidableEq

/-- The observable world: local filesystem, the set of keys of objects in
the configured S3 bucket, the external commands handed to
`subprocess.run`, the keys for which an upload was attempted, and the
lines printed to stdout. -/
structure World where
  fs : FS
  s3 : List String
  cmds : List String
  upload_attempts : List String
  log : List String
deriving Repr, DecidableEq

/-- Outcome of a finished process: the exit code and the final world. -/
structure RunResult where
  exit_code : Nat
  world : World
deriving Repr, DecidableEq

/-- Python exceptions that the upload path can raise: `ClientError`
(from botocore) or any other `Exception`. -/
inductive PyExc where
  | client_error (msg : String)
  | other_exc (msg : String)
deriving Repr, DecidableEq

/-- Behaviour of the boto3 client construction plus `upload_file` call on
this run: either it completes, or it raises some exception. -/
inductive S3Outcome where
  | ok
  | raises (e : PyExc)
deriving Repr, DecidableEq

/-- Environment behaviour for one run: the return codes of the two shell
commands, the behaviour of the S3 upload, and the value
`datetime.now().strftime("%Y%m%d_%H%M%S")` evaluates to. -/
structure Oracle where
  dump_returncode : Nat
  tar_returncode : Nat
  upload_outcome : S3Outcome
  now_timestamp : String
deriving Repr, DecidableEq

/-- `remove_old_archives` (lines 56–63): delete the archive if present,
then the work directory if present, printing a line for each deletion.
Each deletion is guarded by `os.path.exists`, so absence is not an
error. -/
def remove_old_archives (script_dir : String) (w : World) : World :=
  let w1 :=
    if w.fs.archive.isSome then
      { w with fs := { w.fs with archive := none },
               log := w.log ++ ["Removing old archive: " ++ archive_file script_dir] }
    else w
  if w1.fs.work_dir.isSome then
    { w1 with fs := { w1.fs with work_dir := none },
              log := w1.log ++ ["Removing old temporary backup folder: " ++ backup_dir script_dir] }
  else w1

/-- `run cmd` (lines 49–54): print the command, execute it (its effect on
the filesystem may depend on the return code), and `exit(1)` after an
error line when the return code is non-zero. `Except.error` carries the
process result of that early exit. -/
def run (cmd : String) (effect : Nat → FS → FS) (returncode : Nat)
    (w : World) : Except RunResult World :=
  let w1 := { w with log := w.log ++ ["> " ++ cmd], cmds := w.cmds ++ [cmd] }
  let w2 := { w1 with fs := effect returncode w1.fs }
  if returncode ≠ 0 then
    .error ⟨1, { w2 with log := w2.log ++ ["ERROR: command failed"] }⟩
  else
    .ok w2

/-- `dump_file` (line 100): the destination of the database dump. -/
def dump_file (c : Config) (script_dir : String) : String :=
  os_path_join (backup_dir script_dir) (c.db_name ++ ".dump")

/-- The shell command of line 103. -/
def dump_cmd (c : Config) (script_dir : String) : String :=
  "docker exec -t " ++ c.container_name ++ " pg_dump -U " ++ c.db_user ++
    " -F c " ++ c.db_name ++ " > " ++ dump_file c script_dir

/-- The member argument handed to `tar` at line 106:
`os.path.basename(backup_dir)`. -/
def tar_member (script_dir : String) : String :=
  os_path_basename (backup_dir script_dir)

/-- The shell command of line 106. -/
def tar_cmd (script_dir : String) : String :=
  "tar -czf " ++ archive_file script_dir ++ " -C " ++ script_dir ++ " " ++
    tar_member script_dir

/-- Filesystem effect of the dump command of line 103: the shell
redirection `> dump_file` creates (or truncates) the dump file inside the
work directory before `docker exec` runs, so the file exists afterwards
whatever the return code (possibly empty or partial). -/
def dump_effect (c : Config) : Nat → FS → FS := fun _ fs =>
  let files := fs.work_dir.getD []
  let files2 := if (c.db_name ++ ".dump") ∈ files then files else files ++ [c.db_name ++ ".dump"]
  { fs with work_dir := some files2 }

/-- The paths stored in the archive produced by
`tar -czf ARCHIVE -C DIR MEMBER` when `MEMBER` is a directory holding
`files`: the member itself plus each file under it, all relative to
`DIR`. -/
def tar_entries (member : String) (files : List String) : List String :=
  member :: files.map (fun f => member ++ "/" ++ f)

/-- Filesystem effect of the tar command of line 106: on success the
archive exists and packages the work directory under its basename; on
failure the archive state is left as it was. -/
def tar_effect (script_dir : String) : Nat → FS → FS := fun rc fs =>
  if rc = 0 then
    { fs with archive := some (tar_entries (tar_member script_dir) (fs.work_dir.getD [])) }
  else fs

/-- The first path component of an archive entry (everything before the
first `/`, or the whole entry if it has none). -/
def first_component (p : String) : String :=
  String.mk (p.data.takeWhile (fun c => c ≠ '/'))

/-- The distinct top-level entries of an archive: the deduplicated first
components of its stored paths. -/
def top_level_entries (entries : List String) : List String :=
  (entries.map first_component).dedup

/-- `archive_filename` (line 113): the timestamped object name. -/
def archive_filename (c : Config) (timestamp : String) : String :=
  c.db_name ++ "_backup_" ++ timestamp ++ ".tar.gz"

/-- `s3_key` (line 114): prefix with the folder exactly when `S3_FOLDER`
is truthy (set and non-empty). -/
def s3_key (c : Config) (timestamp : String) : String :=
  if truthy c.s3_folder then
    py_str c.s3_folder ++ "/" ++ archive_filename c timestamp
  else
    archive_filename c timestamp

/-- The body of the `try` block of `upload_to_s3` (lines 67–86): build
the boto3 client and call `upload_file`; the oracle decides whether this
completes or raises. -/
def s3_upload_attempt (outcome : S3Outcome) : Except PyExc Unit :=
  match outcome with
  | .ok => .ok ()
  | .raises e => .error e

/-- `upload_to_s3` (lines 65–92): run the upload attempt under
`try`/`except`. The `except ClientError` and `except Exception` handlers
turn every raised exception into the return value `False`; a `true`
return means the upload completed. An uncaught exception would surface
as `Except.error`. -/
def upload_to_s3 (outcome : S3Outcome) : Except PyExc Bool :=
  match s3_upload_attempt outcome with
  | .ok _ => .ok true
  | .error (.client_error _) => .ok false
  | .error (.other_exc _) => .ok false

/-- The world just before the dump command runs: stale-state cleanup
(line 96) followed by `os.makedirs(backup_dir, exist_ok=True)`
(line 99). -/
def pre_dump_world (script_dir : String) (w : World) : World :=
  let w1 := remove_old_archives script_dir w
  { w1 with fs := { w1.fs with work_dir := some (w1.fs.work_dir.getD []) } }

/-- Pipeline state after the dump step (line 103): either the world with
the dump file written, or the early-exit result of a failed command. -/
def stage_dump (c : Config) (script_dir : String) (o : Oracle) (w : World) :
    Except RunResult World :=
  run (dump_cmd c script_dir) (dump_effect c) o.dump_returncode
    (pre_dump_world script_dir w)

/-- Pipeline state after the archive step (line 106). -/
def stage_tar (c : Config) (script_dir : String) (o : Oracle) (w : World) :
    Except RunResult World :=
  (stage_dump c script_dir o w).bind
    (run (tar_cmd script_dir) (tar_effect script_dir) o.tar_returncode)

/-- Pipeline state just before `upload_to_s3` is called: the work
directory has been removed by `shutil.rmtree` (line 109), the object key
computed (lines 112–114) and the upload attempt announced (line 68). -/
def pre_upload_world (c : Config) (script_dir : String) (o : Oracle) (w : World) :
    Except RunResult World :=
  (stage_tar c script_dir o w).map fun w2 =>
    let key := s3_key c o.now_timestamp
    { w2 with
        fs := { w2.fs with work_dir := none },
        upload_attempts := w2.upload_attempts ++ [key],
        log := w2.log ++ ["Uploading " ++ archive_file script_dir ++ " to s3://" ++
          py_str c.s3_bucket_name ++ "/" ++ key] }

/-- `main` (lines 94–125): the full pipeline. On upload success the local
archive is removed, the object exists at the key and the process ends
with code 0; on upload failure the archive is kept and the process exits
with code 1. A `.error` value would be an unhandled exception escaping
`main`. -/
def main_run (c : Config) (script_dir : String) (o : Oracle) (w : World) :
    Except PyExc RunResult :=
  match pre_upload_world c script_dir o w with
  | .error r => .ok r
  | .ok w2 =>
    let key := s3_key c o.now_timestamp
    match upload_to_s3 o.upload_outcome with
    | .error e => .error e
    | .ok true =>
      .ok ⟨0, { w2 with
        fs := { w2.fs with archive := none },
        s3 := w2.s3 ++ [key],
        log := w2.log ++ [
          "Successfully uploaded to s3://" ++ py_str c.s3_bucket_name ++ "/" ++ key,
           "Removing local archive file: " ++ archive_file script_dir,
           "Backup completed successfully!",
           "Archive uploaded to: s3://" ++ py_str c.s3_bucket_name ++ "/" ++ key] }⟩
    | .ok false =>
      .ok ⟨1, { w2 with log := w2.log ++ [
        "ERROR: Failed to upload to S3. Local archive file kept for manual upload.",
        "Local archive file: " ++ archive_file script_dir] }⟩

/-- The whole script: module-level validation (lines 28–41) and then
`main`. With required variables missing it prints the error line and
exits 1 before touching the filesystem or the bucket. -/
def script (c : Config) (script_dir : String) (o : Oracle) (w : World) :
    Except PyExc RunResult :=
  if missing_vars c = [] then
    let w1 := { w with log := w.log ++ [
      "Database: " ++ c.db_name ++ " (container: " ++ c.container_name ++ ")",
      "S3 Bucket: " ++ py_str c.s3_bucket_name,
      "S3 Backup Folder: " ++ py_str c.s3_folder] }
    main_run c script_dir o w1
  else
    .ok ⟨1, { w with log := w.log ++ [missing_vars_msg c] }⟩

/-- An initially empty world: nothing on disk, nothing in the bucket. -/
def world0 : World := ⟨⟨none, none⟩, [], [], [], []⟩

/-- A fully-populated configuration used by concrete test runs. -/
def cfg_ok : Config :=
  ⟨"tb-edge-db", "tb-edge", "postgres", some "AKIAEXAMPLE", some "SECRETEXAMPLE",
   "us-east-1", some "mybucket", some "nightly"⟩

/-- The configuration seen when no upload target is configured: the AWS
and bucket variables are absent, everything else at its default. -/
def cfg_no_upload : Config :=
  ⟨"tb-edge-db", "tb-edge", "postgres", none, none, "us-east-1", none, none⟩

/-- An oracle for a fully successful run. -/
def oracle_ok : Oracle := ⟨0, 0, .ok, "20240101_020000"⟩

/-- An oracle whose dump command fails. -/
def oracle_dump_fail : Oracle := ⟨1, 0, .ok, "20240101_020000"⟩

/-- An oracle whose upload raises a `ClientError`. -/
def oracle_upload_fail : Oracle :=
  ⟨0, 0, .raises (.client_error "AccessDenied"), "20240101_020000"⟩

/-! ## Helper lemmas on paths and archive entries -/

lemma takeWhile_append_stop (p : Char → Bool) (l1 : List Char) (c : Char) (l2 : List Char)
    (h1 : ∀ x ∈ l1, p x = true) (h2 : p c = false) :
    (l1 ++ c :: l2).takeWhile p = l1 := by
  induction l1 with
  | nil => simp [List.takeWhile_cons, h2]
  | cons x xs ih =>
    have hx : p x = true := h1 x (List.mem_cons_self x xs)
    simp [List.takeWhile_cons, hx, ih (fun y hy => h1 y (List.mem_cons_of_mem x hy))]

lemma takeWhile_all (p : Char → Bool) (l : List Char) (h : ∀ x ∈ l, p x = true) :
    l.takeWhile p = l := by
  induction l with
  | nil => rfl
  | cons x xs ih =>
    simp [List.takeWhile_cons, h x (List.mem_cons_self x xs),
      ih (fun y hy => h y (List.mem_cons_of_mem x hy))]

/-- The basename of `dir/name` is `name` whenever `name` holds no slash. -/
lemma os_path_basename_join (d n : String) (h : '/' ∉ n.data) :
    os_path_basename (os_path_join d n) = n := by
  unfold os_path_basename os_path_join
  rw [String.data_append, String.data_append]
  have hslash : ("/" : String).data = ['/'] := rfl
  rw [hslash, List.reverse_append, List.reverse_append]
  simp only [List.reverse_cons, List.reverse_nil, List.nil_append, List.singleton_append]
  rw [takeWhile_append_stop _ _ _ _ ?h1 ?h2]
  case h1 =>
    intro x hx
    rw [List.mem_reverse] at hx
    simp only [decide_eq_true_eq]
    intro hEq
    exact h (hEq ▸ hx)
  case h2 => decide
  rw [List.reverse_reverse]

/-- The member argument of the tar command is always the fixed directory
basename. -/
lemma tar_member_eq (d : String) : tar_member d = "tb_edge_backup_tmp" := by
  unfold tar_member backup_dir
  exact os_path_basename_join d "tb_edge_backup_tmp" (by decide)

lemma first_component_of_no_slash (m : String) (h : '/' ∉ m.data) :
    first_component m = m := by
  unfold first_component
  rw [takeWhile_all]
  · intro x hx
    simp only [decide_eq_true_eq]
    intro hEq
    exact h (hEq ▸ hx)

lemma first_component_under (m f : String) (h : '/' ∉ m.data) :
    first_component (m ++ "/" ++ f) = m := by
  unfold first_component
  rw [String.data_append, String.data_append]
  have hslash : ("/" : String).data = ['/'] := rfl
  rw [hslash, List.append_assoc, List.singleton_append]
  rw [takeWhile_append_stop _ _ _ _ ?h1 ?h2]
  case h1 =>
    intro x hx
    simp only [decide_eq_true_eq]
    intro hEq
    exact h (hEq ▸ hx)
  case h2 => decide

lemma dedup_cons_all_eq {α : Type} [DecidableEq α] (a : α) (l : List α)
    (h : ∀ x ∈ l, x = a) : (a :: l).dedup = [a] := by
  induction l with
  | nil => simp
  | cons x xs ih =>
    have hx : x = a := h x (List.mem_cons_self x xs)
    subst hx
    rw [List.dedup_cons_of_mem (List.mem_cons_self x xs)]
    exact ih (fun y hy => h y (List.mem_cons_of_mem x hy))

/-- The archive produced by the tar step has exactly one top-level entry:
the member directory. -/
lemma top_level_entries_tar (m : String) (files : List String) (h : '/' ∉ m.data) :
    top_level_entries (tar_entries m files) = [m] := by
  unfold top_level_entries tar_entries
  rw [List.map_cons, List.map_map, first_component_of_no_slash m h]
  apply dedup_cons_all_eq
  intro x hx
  rw [List.mem_map] at hx
  obtain ⟨f, _, rfl⟩ := hx
  exact first_component_under m f h

/-! ## Projection lemmas for the pipeline stages -/

lemma remove_old_archives_spec (d : String) (w : World) :
    (remove_old_archives d w).fs = ⟨none, none⟩ ∧
    (remove_old_archives d w).s3 = w.s3 ∧
    (remove_old_archives d w).cmds = w.cmds ∧
    (remove_old_archives d w).upload_attempts = w.upload_attempts := by
  obtain ⟨⟨wd, ar⟩, s3v, cm, ua, lg⟩ := w
  rcases ar <;> rcases wd <;> simp [remove_old_archives]

lemma pre_dump_world_spec (d : String) (w : World) :
    pre_dump_world d w = { remove_old_archives d w with fs := ⟨some [], none⟩ } := by
  simp [pre_dump_world, (remove_old_archives_spec d w).1]

/-- The banner lines printed after validation succeeds (lines 39–41). -/
def w_banner (c : Config) (w : World) : World :=
  { w with log := w.log ++ [
      "Database: " ++ c.db_name ++ " (container: " ++ c.container_name ++ ")",
      "S3 Bucket: " ++ py_str c.s3_bucket_name,
      "S3 Backup Folder: " ++ py_str c.s3_folder] }

/-- Expected world after both shell commands succeed. -/
def w_post_tar (c : Config) (d : String) (w : World) : World :=
  { remove_old_archives d w with
      fs := ⟨some [c.db_name ++ ".dump"], some (tar_entries (tar_member d) [c.db_name ++ ".dump"])⟩,
      cmds := w.cmds ++ [dump_cmd c d, tar_cmd d],
      log := (remove_old_archives d w).log ++ ["> " ++ dump_cmd c d, "> " ++ tar_cmd d] }

/-- Expected world handed to `upload_to_s3`. -/
def w_pre_upload (c : Config) (d : String) (o : Oracle) (w : World) : World :=
  { w_post_tar c d w with
      fs := ⟨none, some (tar_entries (tar_member d) [c.db_name ++ ".dump"])⟩,
      upload_attempts := w.upload_attempts ++ [s3_key c o.now_timestamp],
      log := (w_post_tar c d w).log ++ ["Uploading " ++ archive_file d ++ " to s3://" ++ py_str c.s3_bucket_name ++ "/" ++ s3_key c o.now_timestamp] }

lemma stage_tar_ok (c : Config) (d : String) (o : Oracle) (w : World)
    (hd : o.dump_returncode = 0) (ht : o.tar_returncode = 0) :
    stage_tar c d o w = .ok (w_post_tar c d w) := by
  unfold stage_tar stage_dump run w_post_tar
  rw [pre_dump_world_spec]
  simp [hd, ht, dump_effect, tar_effect, Except.bind,
    List.append_assoc, (remove_old_archives_spec d w).2.2.1]

lemma pre_upload_world_ok (c : Config) (d : String) (o : Oracle) (w : World)
    (hd : o.dump_returncode = 0) (ht : o.tar_returncode = 0) :
    pre_upload_world c d o w = .ok (w_pre_upload c d o w) := by
  unfold pre_upload_world w_pre_upload
  rw [stage_tar_ok c d o w hd ht]
  simp [Except.map]
  constructor
  · simp [w_post_tar]
  · simp [w_post_tar, (remove_old_archives_spec d w).2.2.2]

lemma script_of_valid (c : Config) (d : String) (o : Oracle) (w : World)
    (hm : missing_vars c = []) :
    script c d o w = main_run c d o (w_banner c w) := by
  simp [script, hm, w_banner]

lemma w_post_tar_s3 (c : Config) (d : String) (w : World) :
    (w_post_tar c d w).s3 = w.s3 := by
  simp [w_post_tar, (remove_old_archives_spec d w).2.1]

lemma w_pre_upload_s3 (c : Config) (d : String) (o : Oracle) (w : World) :
    (w_pre_upload c d o w).s3 = w.s3 := by
  simp [w_pre_upload, w_post_tar_s3]

lemma w_banner_parts (c : Config) (w : World) :
    (w_banner c w).fs = w.fs ∧ (w_banner c w).s3 = w.s3 ∧
    (w_banner c w).cmds = w.cmds ∧ (w_banner c w).upload_attempts = w.upload_attempts := by
  simp [w_banner]

/-! ## Claims -/

/-- C1: if any of the required configuration values `AWS_ACCESS_KEY_ID`,
`AWS_SECRET_ACCESS_KEY`, `S3_BUCKET_NAME` is missing, the script prints
the `ERROR:` line and exits with code 1 before any side effect: the
filesystem, the bucket, the command history and the upload attempts of
the resulting world are exactly those of the initial world. -/
theorem C1_missing_config_exits_before_side_effects
    (c : Config) (d : String) (o : Oracle) (w : World)
    (h : missing_vars c ≠ []) :
    script c d o w = .ok ⟨1, { w with log := w.log ++ [missing_vars_msg c] }⟩ := by
  unfold script
  rw [if_neg h]

/-- Witness for C1 at a concrete input: the default configuration with no
AWS variables set. -/
theorem C1_missing_config_witness :
    missing_vars cfg_no_upload ≠ [] ∧
      script cfg_no_upload "/opt/backup" oracle_ok world0 =
        .ok ⟨1, { world0 with log := world0.log ++ [missing_vars_msg cfg_no_upload] }⟩ :=
  ⟨by decide,
   C1_missing_config_exits_before_side_effects cfg_no_upload "/opt/backup" oracle_ok world0
     (by decide)⟩

/-- C2: for every initial world, once the stale-state cleaner has run,
neither the work directory nor the archive file exists — in particular
the state the dump step starts from carries no stale archive — and the
cleaner touches nothing else (bucket, commands, upload attempts);
because each deletion is guarded by an existence check, it succeeds
whether or not each artifact was present. -/
theorem C2_cleaner_removes_both_artifacts (d : String) (w : World) :
    (remove_old_archives d w).fs.work_dir = none ∧
    (remove_old_archives d w).fs.archive = none ∧
    (pre_dump_world d w).fs.archive = none ∧
    (remove_old_archives d w).s3 = w.s3 ∧
    (remove_old_archives d w).cmds = w.cmds ∧
    (remove_old_archives d w).upload_attempts = w.upload_attempts := by
  obtain ⟨h1, h2, h3, h4⟩ := remove_old_archives_spec d w
  refine ⟨?_, ?_, ?_, h2, h3, h4⟩
  · rw [h1]
  · rw [h1]
  · rw [pre_dump_world_spec]

/-- C3: when the dump command returns a non-zero status, the process
exits with code 1, the archiver never executes (the dump command is the
only external command of the run), and nothing is cleaned up: the work
directory still holds the partial dump file, and no upload happened. -/
theorem C3_dump_failure_aborts_without_cleanup
    (c : Config) (d : String) (o : Oracle) (w : World)
    (hm : missing_vars c = []) (hd : o.dump_returncode ≠ 0) :
    ∃ r, script c d o w = .ok r ∧
      r.exit_code = 1 ∧
      r.world.cmds = w.cmds ++ [dump_cmd c d] ∧
      r.world.fs.work_dir = some [c.db_name ++ ".dump"] ∧
      r.world.fs.archive = none ∧
      r.world.upload_attempts = w.upload_attempts ∧
      r.world.s3 = w.s3 := by
  rw [script_of_valid c d o w hm]
  unfold main_run pre_upload_world stage_tar stage_dump run
  rw [pre_dump_world_spec]
  simp only [hd, ite_true, if_pos, ne_eq, not_false_eq_true]
  refine ⟨_, rfl, rfl, ?_, ?_, ?_, ?_, ?_⟩ <;>
    simp [dump_effect, remove_old_archives_spec d (w_banner c w), w_banner_parts c w]

/-- Witness for C3: a concrete run whose dump command exits 1. -/
theorem C3_dump_failure_witness :
    missing_vars cfg_ok = [] ∧ oracle_dump_fail.dump_returncode ≠ 0 ∧
      (∃ r, script cfg_ok "/opt/backup" oracle_dump_fail world0 = .ok r ∧
        r.exit_code = 1 ∧
        r.world.cmds = world0.cmds ++ [dump_cmd cfg_ok "/opt/backup"] ∧
        r.world.fs.work_dir = some [cfg_ok.db_name ++ ".dump"] ∧
        r.world.fs.archive = none ∧
        r.world.upload_attempts = world0.upload_attempts ∧
        r.world.s3 = world0.s3) :=
  ⟨by decide, by decide,
   C3_dump_failure_aborts_without_cleanup cfg_ok "/opt/backup" oracle_dump_fail world0
     (by decide) (by decide)⟩

lemma data_head?_append (m f : String) (h : m.data ≠ []) :
    (m ++ f).data.head? = m.data.head? := by
  rw [String.data_append]
  cases hm : m.data with
  | nil => exact absurd hm h
  | cons a l => simp

/-- C4: whenever the archiver step succeeds, the archive exists, it has
exactly one top-level entry — the basename of the work directory, which
is `tb_edge_backup_tmp` — and none of its stored paths is absolute (none
begins with `/`). -/
theorem C4_archive_has_single_relative_top_entry
    (c : Config) (d : String) (o : Oracle) (w : World)
    (hd : o.dump_returncode = 0) (ht : o.tar_returncode = 0) :
    ∃ w2 entries, stage_tar c d o w = .ok w2 ∧
      w2.fs.archive = some entries ∧
      top_level_entries entries = [os_path_basename (backup_dir d)] ∧
      top_level_entries entries = ["tb_edge_backup_tmp"] ∧
      ∀ e ∈ entries, e.data.head? ≠ some '/' := by
  refine ⟨w_post_tar c d w, tar_entries (tar_member d) [c.db_name ++ ".dump"],
    stage_tar_ok c d o w hd ht, by simp [w_post_tar], ?_, ?_, ?_⟩
  · have hb : os_path_basename (backup_dir d) = tar_member d := rfl
    rw [hb, tar_member_eq d, top_level_entries_tar _ _ (by decide)]
  · rw [tar_member_eq d, top_level_entries_tar _ _ (by decide)]
  · rw [tar_member_eq d]
    intro e he
    unfold tar_entries at he
    simp only [List.mem_cons, List.mem_map, List.mem_singleton] at he
    rcases he with rfl | ⟨f, _, rfl⟩
    · decide
    · rw [show ("tb_edge_backup_tmp" ++ "/" ++ f : String) =
        ("tb_edge_backup_tmp" ++ "/") ++ f from rfl]
      rw [data_head?_append _ _ (by decide)]
      decide

/-- Witness for C4: a concrete successful run. -/
theorem C4_archive_witness :
    oracle_ok.dump_returncode = 0 ∧ oracle_ok.tar_returncode = 0 ∧
      (∃ w2 entries, stage_tar cfg_ok "/opt/backup" oracle_ok world0 = .ok w2 ∧
        w2.fs.archive = some entries ∧
        top_level_entries entries = [os_path_basename (backup_dir "/opt/backup")] ∧
        top_level_entries entries = ["tb_edge_backup_tmp"] ∧
        ∀ e ∈ entries, e.data.head? ≠ some '/') :=
  ⟨by decide, by decide,
   C4_archive_has_single_relative_top_entry cfg_ok "/opt/backup" oracle_ok world0
     (by decide) (by decide)⟩

lemma s3_key_folder (c : Config) (t : String) (h : truthy c.s3_folder = true) :
    s3_key c t = py_str c.s3_folder ++ "/" ++ (c.db_name ++ "_backup_" ++ t ++ ".tar.gz") := by
  simp [s3_key, archive_filename, h]

lemma s3_key_no_folder (c : Config) (t : String) (h : truthy c.s3_folder = false) :
    s3_key c t = c.db_name ++ "_backup_" ++ t ++ ".tar.gz" := by
  simp [s3_key, archive_filename, h]

lemma w_pre_upload_attempts (c : Config) (d : String) (o : Oracle) (w : World) :
    (w_pre_upload c d o w).upload_attempts =
      w.upload_attempts ++ [s3_key c o.now_timestamp] := by
  simp [w_pre_upload, w_post_tar, (remove_old_archives_spec d w).2.2.2]

/-- C5: every run that reaches the upload step attempts exactly one
upload, under the key `s3_key`, which is
`S3_FOLDER ++ "/" ++ dbName ++ "_backup_" ++ timestamp ++ ".tar.gz"` when
a non-empty folder is configured and
`dbName ++ "_backup_" ++ timestamp ++ ".tar.gz"` otherwise, the
timestamp being the oracle's `strftime` value for the run's current
time. -/
theorem C5_upload_key_shape
    (c : Config) (d : String) (o : Oracle) (w : World)
    (hm : missing_vars c = []) (hd : o.dump_returncode = 0)
    (ht : o.tar_returncode = 0) :
    ∃ r, script c d o w = .ok r ∧
      r.world.upload_attempts = w.upload_attempts ++ [s3_key c o.now_timestamp] ∧
      (truthy c.s3_folder = true →
        s3_key c o.now_timestamp =
          py_str c.s3_folder ++ "/" ++ (c.db_name ++ "_backup_" ++ o.now_timestamp ++ ".tar.gz")) ∧
      (truthy c.s3_folder = false →
        s3_key c o.now_timestamp =
          c.db_name ++ "_backup_" ++ o.now_timestamp ++ ".tar.gz") := by
  rw [script_of_valid c d o w hm]
  unfold main_run
  rw [pre_upload_world_ok c d o (w_banner c w) hd ht]
  have hua : (w_pre_upload c d o (w_banner c w)).upload_attempts =
      w.upload_attempts ++ [s3_key c o.now_timestamp] := by
    rw [w_pre_upload_attempts, (w_banner_parts c w).2.2.2]
  rcases hu : o.upload_outcome with _ | e
  · exact ⟨_, rfl, hua, s3_key_folder c o.now_timestamp, s3_key_no_folder c o.now_timestamp⟩
  · rcases e with msg | msg <;>
      exact ⟨_, rfl, hua, s3_key_folder c o.now_timestamp, s3_key_no_folder c o.now_timestamp⟩

/-- Witness for C5: a concrete run with a configured folder. -/
theorem C5_upload_key_witness :
    missing_vars cfg_ok = [] ∧ oracle_ok.dump_returncode = 0 ∧
      oracle_ok.tar_returncode = 0 ∧
      (∃ r, script cfg_ok "/opt/backup" oracle_ok world0 = .ok r ∧
        r.world.upload_attempts =
          world0.upload_attempts ++ [s3_key cfg_ok oracle_ok.now_timestamp] ∧
        (truthy cfg_ok.s3_folder = true →
          s3_key cfg_ok oracle_ok.now_timestamp =
            py_str cfg_ok.s3_folder ++ "/" ++
              (cfg_ok.db_name ++ "_backup_" ++ oracle_ok.now_timestamp ++ ".tar.gz")) ∧
        (truthy cfg_ok.s3_folder = false →
          s3_key cfg_ok oracle_ok.now_timestamp =
            cfg_ok.db_name ++ "_backup_" ++ oracle_ok.now_timestamp ++ ".tar.gz")) :=
  ⟨by decide, by decide, by decide,
   C5_upload_key_shape cfg_ok "/opt/backup" oracle_ok world0 (by decide) (by decide) (by decide)⟩

/-- C6: if upload is configured (validation passed) and the upload
succeeds, then at job end the local archive no longer exists, the bucket
holds a new object at the computed key, and the process exits with
code 0. -/
theorem C6_successful_upload_finalizes
    (c : Config) (d : String) (o : Oracle) (w : World)
    (hm : missing_vars c = []) (hd : o.dump_returncode = 0)
    (ht : o.tar_returncode = 0) (hu : o.upload_outcome = .ok) :
    ∃ r, script c d o w = .ok r ∧
      r.exit_code = 0 ∧
      r.world.fs.archive = none ∧
      r.world.s3 = w.s3 ++ [s3_key c o.now_timestamp] := by
  rw [script_of_valid c d o w hm]
  unfold main_run
  rw [pre_upload_world_ok c d o (w_banner c w) hd ht, hu]
  refine ⟨_, rfl, rfl, rfl, ?_⟩
  have hs3 : (w_pre_upload c d o (w_banner c w)).s3 = w.s3 := by
    rw [w_pre_upload_s3, (w_banner_parts c w).2.1]
  simpa using congrArg (· ++ [s3_key c o.now_timestamp]) hs3

/-- Witness for C6: the fully successful concrete run. -/
theorem C6_successful_upload_witness :
    missing_vars cfg_ok = [] ∧ oracle_ok.dump_returncode = 0 ∧
      oracle_ok.tar_returncode = 0 ∧ oracle_ok.upload_outcome = .ok ∧
      (∃ r, script cfg_ok "/opt/backup" oracle_ok world0 = .ok r ∧
        r.exit_code = 0 ∧
        r.world.fs.archive = none ∧
        r.world.s3 = world0.s3 ++ [s3_key cfg_ok oracle_ok.now_timestamp]) :=
  ⟨by decide, by decide, by decide, by decide,
   C6_successful_upload_finalizes cfg_ok "/opt/backup" oracle_ok world0
     (by decide) (by decide) (by decide) (by decide)⟩

/-- C7: if the upload fails — whatever exception the transport or
authorization layer raises — the local archive still exists with exactly
the contents the archiver gave it, nothing was added to the bucket, and
the process exits with code 1. -/
theorem C7_failed_upload_keeps_archive
    (c : Config) (d : String) (o : Oracle) (w : World) (e : PyExc)
    (hm : missing_vars c = []) (hd : o.dump_returncode = 0)
    (ht : o.tar_returncode = 0) (hu : o.upload_outcome = .raises e) :
    ∃ r, script c d o w = .ok r ∧
      r.exit_code = 1 ∧
      r.world.fs.archive = some (tar_entries (tar_member d) [c.db_name ++ ".dump"]) ∧
      r.world.s3 = w.s3 := by
  rw [script_of_valid c d o w hm]
  unfold main_run
  rw [pre_upload_world_ok c d o (w_banner c w) hd ht, hu]
  have hs3 : (w_pre_upload c d o (w_banner c w)).s3 = w.s3 := by
    rw [w_pre_upload_s3, (w_banner_parts c w).2.1]
  have har : (w_pre_upload c d o (w_banner c w)).fs.archive =
      some (tar_entries (tar_member d) [c.db_name ++ ".dump"]) := by
    simp [w_pre_upload]
  rcases e with msg | msg <;> exact ⟨_, rfl, rfl, har, hs3⟩

/-- Witness for C7: a concrete run whose upload raises a `ClientError`. -/
theorem C7_failed_upload_witness :
    missing_vars cfg_ok = [] ∧ oracle_upload_fail.dump_returncode = 0 ∧
      oracle_upload_fail.tar_returncode = 0 ∧
      oracle_upload_fail.upload_outcome = .raises (.client_error "AccessDenied") ∧
      (∃ r, script cfg_ok "/opt/backup" oracle_upload_fail world0 = .ok r ∧
        r.exit_code = 1 ∧
        r.world.fs.archive =
          some (tar_entries (tar_member "/opt/backup") [cfg_ok.db_name ++ ".dump"]) ∧
        r.world.s3 = world0.s3) :=
  ⟨by decide, by decide, by decide, by decide,
   C7_failed_upload_keeps_archive cfg_ok "/opt/backup" oracle_upload_fail world0
     (.client_error "AccessDenied") (by decide) (by decide) (by decide) (by decide)⟩

/-- C8, counterexample: in the no-upload configuration (default database
and container names, no S3 variables set) the job does not complete with
a local archive — it exits with code 1 and produces no archive at all,
because the script requires the S3 settings unconditionally. -/
theorem C8_counterexample_no_upload_config :
    (script cfg_no_upload "/opt/backup" oracle_ok world0).toOption.map
        (fun r => (r.exit_code, r.world.fs.archive)) = some (1, none) ∧
      missing_vars cfg_no_upload =
        ["AWS_ACCESS_KEY_ID", "AWS_SECRET_ACCESS_KEY", "S3_BUCKET_NAME"] := by
  constructor
  · decide
  · decide

/-- C8, amended: there is no no-upload mode — with the S3 settings absent
the script prints the missing-variables error and exits 1 before any
backup step, for every script directory, environment behaviour and
initial world. The deliverable of the original claim arises instead on
the upload-failure path: with upload configured, the job ends with the
local archive kept, containing `tb_edge_backup_tmp` and
`tb_edge_backup_tmp/tb-edge.dump`. -/
theorem C8_no_upload_variant_rejected :
    (∀ (d : String) (o : Oracle) (w : World),
        script cfg_no_upload d o w =
          .ok ⟨1, { w with log := w.log ++ [missing_vars_msg cfg_no_upload] }⟩) ∧
      (script cfg_ok "/opt/backup" oracle_upload_fail world0).toOption.map
          (fun r => (r.exit_code, r.world.fs.archive)) =
        some (1, some ["tb_edge_backup_tmp", "tb_edge_backup_tmp/tb-edge.dump"]) := by
  constructor
  · intro d o w
    unfold script
    rw [if_neg (by decide)]
  · decide

/-- C9: the upload step never raises an unhandled exception — for every
possible outcome of the boto3 calls, `upload_to_s3` returns a boolean —
so every run reaching the upload ends in a process result, either full
success or the reported-failure path with the archive kept and exit
code 1, never a crash. -/
theorem C9_upload_never_raises
    (c : Config) (d : String) (o : Oracle) (w : World)
    (hm : missing_vars c = []) (hd : o.dump_returncode = 0)
    (ht : o.tar_returncode = 0) :
    (∀ outcome : S3Outcome, ∃ b, upload_to_s3 outcome = .ok b) ∧
      ∃ r, script c d o w = .ok r ∧
        (r.exit_code = 0 ∨ (r.exit_code = 1 ∧ r.world.fs.archive ≠ none)) := by
  constructor
  · intro outcome
    rcases outcome with _ | e
    · exact ⟨true, rfl⟩
    · rcases e with m | m <;> exact ⟨false, rfl⟩
  · rw [script_of_valid c d o w hm]
    unfold main_run
    rw [pre_upload_world_ok c d o (w_banner c w) hd ht]
    rcases hu : o.upload_outcome with _ | e
    · exact ⟨_, rfl, Or.inl rfl⟩
    · rcases e with m | m <;> exact ⟨_, rfl, Or.inr ⟨rfl, by simp [w_pre_upload]⟩⟩

/-- Witness for C9: the concrete run whose upload raises. -/
theorem C9_upload_never_raises_witness :
    missing_vars cfg_ok = [] ∧ oracle_upload_fail.dump_returncode = 0 ∧
      oracle_upload_fail.tar_returncode = 0 ∧
      ((∀ outcome : S3Outcome, ∃ b, upload_to_s3 outcome = .ok b) ∧
        ∃ r, script cfg_ok "/opt/backup" oracle_upload_fail world0 = .ok r ∧
          (r.exit_code = 0 ∨ (r.exit_code = 1 ∧ r.world.fs.archive ≠ none))) :=
  ⟨by decide, by decide, by decide,
   C9_upload_never_raises cfg_ok "/opt/backup" oracle_upload_fail world0
     (by decide) (by decide) (by decide)⟩

/-- C10: every run that reaches the upload step does so with the work
directory already removed — the world handed to `upload_to_s3` has no
work directory — and after an upload failure the only local artifact
left is the archive: the work directory is still gone. -/
theorem C10_workdir_gone_before_upload
    (c : Config) (d : String) (o : Oracle) (w : World)
    (hm : missing_vars c = []) (hd : o.dump_returncode = 0)
    (ht : o.tar_returncode = 0) :
    ∃ w2, pre_upload_world c d o (w_banner c w) = .ok w2 ∧
      w2.fs.work_dir = none ∧
      ∃ r, script c d o w = .ok r ∧ r.world.fs.work_dir = none ∧
        (∀ e, o.upload_outcome = .raises e →
          r.exit_code = 1 ∧
          r.world.fs.archive = some (tar_entries (tar_member d) [c.db_name ++ ".dump"]) ∧
          r.world.fs.work_dir = none) := by
  refine ⟨_, pre_upload_world_ok c d o (w_banner c w) hd ht, by simp [w_pre_upload], ?_⟩
  rw [script_of_valid c d o w hm]
  unfold main_run
  rw [pre_upload_world_ok c d o (w_banner c w) hd ht]
  rcases hu : o.upload_outcome with _ | e
  · refine ⟨_, rfl, by simp [w_pre_upload], ?_⟩
    intro e he
    exact absurd he (by simp)
  · rcases e with m | m <;>
      exact ⟨_, rfl, by simp [w_pre_upload],
        fun e' _ => ⟨rfl, by simp [w_pre_upload], by simp [w_pre_upload]⟩⟩

/-- Witness for C10: the concrete failed-upload run. -/
theorem C10_workdir_gone_witness :
    missing_vars cfg_ok = [] ∧ oracle_upload_fail.dump_returncode = 0 ∧
      oracle_upload_fail.tar_returncode = 0 ∧
      (∃ w2, pre_upload_world cfg_ok "/opt/backup" oracle_upload_fail (w_banner cfg_ok world0) = .ok w2 ∧
        w2.fs.work_dir = none ∧
        ∃ r, script cfg_ok "/opt/backup" oracle_upload_fail world0 = .ok r ∧
          r.world.fs.work_dir = none ∧
          (∀ e, oracle_upload_fail.upload_outcome = .raises e →
            r.exit_code = 1 ∧
            r.world.fs.archive =
              some (tar_entries (tar_member "/opt/backup") [cfg_ok.db_name ++ ".dump"]) ∧
            r.world.fs.work_dir = none)) :=
  ⟨by decide, by decide, by decide,
   C10_workdir_gone_before_upload cfg_ok "/opt/backup" oracle_upload_fail world0
     (by decide) (by decide) (by decide)⟩

end TbEdgeBackup
